import Mathlib

/-!
Verification of the enrichment/scoring pipeline of the Forex news scraper
(`scraper.py`, `config.py`, `utils.py`).

The Python code is shallowly embedded: pure functions become Lean functions,
pandas row access (`row['col']`) becomes lookup in an association list that
returns `Except` (a missing key models the raised `KeyError`), the HTTP call
of the coverage adapter becomes a function-valued oracle, and the coverage
call performed by the severity composer is recorded in an explicit call
trace.  Python floats are modelled by exact rational arithmetic over `ℚ`
(the decimal literals of the source are exact rationals); `math.log1p` is
an uninterpreted parameter `log1p : ℚ → ℚ` of the severity composer, since
only the multiplicative structure of the formula is at stake.
-/

/-! ### String utilities (Python `in`, `str.lower`, `str.split`) -/

/-- Contiguous-sublist test on character lists, with the same result as
Python's substring operator `needle in hay` (the empty needle matches). -/
def substrCharsB (needle : List Char) : List Char → Bool
  | [] => needle.isEmpty
  | c :: rest => needle.isPrefixOf (c :: rest) || substrCharsB needle rest

/-- Python `needle in hay` on strings (contiguous substring). -/
def py_in (needle hay : String) : Bool :=
  substrCharsB needle.toList hay.toList

/-- Python `s.lower()` (the keywords and headlines here are ASCII). -/
def py_lower (s : String) : String :=
  String.mk (s.toList.map Char.toLower)

/-- Splitting on whitespace runs, accumulating the current word reversed. -/
def wordsAux : List Char → List Char → List String
  | [], acc => if acc.isEmpty then [] else [String.mk acc.reverse]
  | c :: rest, acc =>
      if c.isWhitespace then
        if acc.isEmpty then wordsAux rest []
        else String.mk acc.reverse :: wordsAux rest []
      else wordsAux rest (c :: acc)

/-- Python `s.split()`: split on whitespace runs, dropping empty pieces. -/
def pySplit (s : String) : List String :=
  wordsAux s.toList []

/-! ### Lookup tables (`config.py` and the top of `scraper.py`) -/

def ALLOWED_CURRENCY_CODES : List String := ["USD", "EUR", "GBP", "JPY", "AUD"]

def ALLOWED_IMPACT_COLORS : List String := ["red", "orange", "yellow", "gray"]

/-- `COLOR_SEVERITY_MAP`, kept in insertion order as an association list. -/
def COLOR_SEVERITY_MAP : List (String × String × Int) :=
  [("red", "High", 3), ("orange", "Medium", 2), ("yellow", "Low", 1), ("gray", "Low", 1)]

/-- `EVENT_CATEGORIES`, kept in insertion order (dict iteration order). -/
def EVENT_CATEGORIES : List (String × String) :=
  [("Non-Farm Employment", "NFP"),
   ("GDP", "GDP"),
   ("Interest Rate Decision", "RateDecision"),
   ("CPI", "Inflation"),
   ("FOMC", "MonetaryPolicy")]

def GEOPOLITICAL_KEYWORDS : List String :=
  ["war", "sanctions", "unrest", "disaster", "terror", "conflict"]

def COMMODITY_KEYWORDS : List String :=
  ["mining output", "mining", "reserves", "IMF", "gold supply"]

/-! ### Classifier (`infer_category`, `contains_keyword`) -/

/-- The `for k, v in EVENT_CATEGORIES.items()` loop of `infer_category`. -/
def infer_category_go (headline : String) : List (String × String) → String
  | [] => "Other"
  | (k, v) :: rest =>
      if py_in (py_lower k) (py_lower headline) then v
      else infer_category_go headline rest

/-- `infer_category(headline)`: first case-insensitive substring match in
the fixed insertion order of `EVENT_CATEGORIES`, `"Other"` otherwise. -/
def infer_category (headline : String) : String :=
  infer_category_go headline EVENT_CATEGORIES

/-- `contains_keyword(text, keywords)`. -/
def contains_keyword (text : String) (keywords : List String) : Bool :=
  let text_lower := py_lower text
  keywords.any (fun kw => py_in (py_lower kw) text_lower)

/-! ### Factor calculators (`compute_coverage_factor`, `sentiment_factor`) -/

/-- `compute_coverage_factor(coverage_count)` (the count is a Python int). -/
def compute_coverage_factor (coverage_count : Int) : ℚ :=
  if coverage_count = 0 then 1.0
  else if 1 ≤ coverage_count ∧ coverage_count ≤ 5 then 1.1
  else 1.2

/-- `sentiment_factor(s)` as defined inside `enrich_data`. -/
def sentiment_factor (s : ℚ) : ℚ :=
  if s < -0.05 then 1 + |s| * 0.1 else 1.0

/-! ### Coverage adapter (`fetch_news_coverage`)

The HTTP exchange is abstracted into an oracle mapping the request data
(keyword and event time) to an outcome.  `HttpOutcome.failure` covers every
way the `try` block can raise before the body is in hand: network error,
timeout, and a non-2xx status raised by `raise_for_status`.
`HttpOutcome.success body` is a received response; `body = none` means
`r.json()` raised (unparseable body), `body = some j` is the parsed JSON. -/

/-- A parsed JSON value, as returned by `r.json()`. -/
inductive PyJson where
  | jnull : PyJson
  | jbool : Bool → PyJson
  | jnum : Int → PyJson
  | jstr : String → PyJson
  | jarr : List PyJson → PyJson
  | jobj : List (String × PyJson) → PyJson

inductive HttpOutcome where
  | failure : HttpOutcome
  | success : Option PyJson → HttpOutcome

/-- Python `dict.get(key, default)` on a parsed JSON object. -/
def dict_get (fields : List (String × PyJson)) (key : String) (default : PyJson) : PyJson :=
  (fields.lookup key).getD default

/-- `fetch_news_coverage(keyword, event_time_ms)` over an HTTP oracle.
Any exception inside the `try` block (transport failure, `raise_for_status`,
`r.json()` on a bad body, `.get` on a non-dict body) is swallowed by the
bare `except:` and yields the count 0; otherwise the result is
`data.get("totalResults", 0)`, whatever value that field holds. -/
def fetch_news_coverage (http : String → Int → HttpOutcome)
    (keyword : String) (event_time_ms : Int) : PyJson :=
  match http keyword event_time_ms with
  | .failure => .jnum 0
  | .success none => .jnum 0
  | .success (some (.jobj fields)) => dict_get fields "totalResults" (.jnum 0)
  | .success (some _) => .jnum 0

/-! ### Time normalizer (`convert_to_utc_ms`)

`datetime.strptime(full_str, "%b %d, %Y %I:%M%p")` is embedded
component-wise: `month_str` and `day_str` are whitespace-free (they come
from `str.split()`), the year is the literal `2024`, and `time_str` is the
tail of the combined string, so the pattern match decomposes into a month
match, a day match and a time match, with the end-of-string check of
`strptime` reflected in the time match consuming `time_str` entirely.
A failed pattern match is the raised `ValueError`; the short-label case is
the explicit `return None`.  The epoch arithmetic uses the fact that
2024-01-01 is day 19723 of the Unix epoch and 2024 is a leap year. -/

def monthNamesLower : List String :=
  ["jan", "feb", "mar", "apr", "may", "jun", "jul", "aug", "sep", "oct", "nov", "dec"]

/-- `%b`: a full month abbreviation, case-insensitively; 1-based month. -/
def parse_month (s : String) : Option Nat :=
  (monthNamesLower.findIdx? (fun m => m = py_lower s)).map (fun i => i + 1)

/-- The numeric value of a non-empty all-digit character list. -/
def digitsVal? (cs : List Char) : Option Nat :=
  if cs ≠ [] ∧ cs.all Char.isDigit then
    some (cs.foldl (fun a c => a * 10 + (c.toNat - 48)) 0)
  else none

/-- `%d` immediately followed by a literal: one or two digits, value 1-31,
consuming the whole token. -/
def parse_day (s : String) : Option Nat :=
  if 1 ≤ s.length ∧ s.length ≤ 2 then
    match digitsVal? s.toList with
    | some d => if 1 ≤ d ∧ d ≤ 31 then some d else none
    | none => none
  else none

/-- `%I` followed by a literal `:`: one or two digits, value 1-12. -/
def parse_hour12 (cs : List Char) : Option Nat :=
  if 1 ≤ cs.length ∧ cs.length ≤ 2 then
    match digitsVal? cs with
    | some h => if 1 ≤ h ∧ h ≤ 12 then some h else none
    | none => none
  else none

/-- `%p` at end of string: `am` or `pm`, case-insensitively.
`some true` means pm. -/
def ampm_of (cs : List Char) : Option Bool :=
  let lower := cs.map Char.toLower
  if lower = ['a', 'm'] then some false
  else if lower = ['p', 'm'] then some true
  else none

/-- `%M%p` via the single-digit branch `\d` of the minute pattern. -/
def minute1 (cs : List Char) : Option (Nat × Bool) :=
  match cs with
  | c1 :: rest =>
      if c1.isDigit then (ampm_of rest).map (fun pm => (c1.toNat - 48, pm)) else none
  | [] => none

/-- `%M%p` via the two-digit branch `[0-5]\d` of the minute pattern. -/
def minute2 (cs : List Char) : Option (Nat × Bool) :=
  match cs with
  | c1 :: c2 :: rest =>
      if c1.isDigit && c2.isDigit && decide (c1.toNat - 48 ≤ 5) then
        (ampm_of rest).map (fun pm => ((c1.toNat - 48) * 10 + (c2.toNat - 48), pm))
      else none
  | _ => none

/-- `%M%p`, trying the greedy two-digit branch first as the regex does. -/
def minute_ampm (cs : List Char) : Option (Nat × Bool) :=
  (minute2 cs).orElse (fun _ => minute1 cs)

/-- 12-hour to 24-hour conversion performed by `strptime` for `%I`/`%p`. -/
def hour24_of (h12 : Nat) (pm : Bool) : Nat :=
  if pm then (if h12 = 12 then 12 else h12 + 12) else (if h12 = 12 then 0 else h12)

/-- Python `s.split(":")` on a character list. -/
def splitOnColon : List Char → List (List Char)
  | [] => [[]]
  | c :: rest =>
      if c = ':' then [] :: splitOnColon rest
      else
        match splitOnColon rest with
        | [] => [[c]]
        | h :: t => (c :: h) :: t

/-- `%I:%M%p` consuming the whole time string.  Leading whitespace of the
time string is absorbed by the `\s+` that the literal space of the format
turns into. -/
def parse_time (time_str : String) : Option (Nat × Nat) :=
  match splitOnColon (time_str.toList.dropWhile Char.isWhitespace) with
  | [hcs, rest] =>
      match parse_hour12 hcs with
      | some h =>
          (minute_ampm rest).map (fun p => (hour24_of h p.2, p.1))
      | none => none
  | _ => none

/-- Day count of each month of the (leap) year 2024, used by the
`datetime` constructor's day-of-month validation. -/
def daysInMonth2024 (m : Nat) : Nat :=
  match m with
  | 1 => 31 | 2 => 29 | 3 => 31 | 4 => 30 | 5 => 31 | 6 => 30
  | 7 => 31 | 8 => 31 | 9 => 30 | 10 => 31 | 11 => 30 | 12 => 31
  | _ => 0

/-- Days of 2024 before the 1st of month `m` (leap year). -/
def cumDays2024 (m : Nat) : Nat :=
  match m with
  | 1 => 0 | 2 => 31 | 3 => 60 | 4 => 91 | 5 => 121 | 6 => 152
  | 7 => 182 | 8 => 213 | 9 => 244 | 10 => 274 | 11 => 305 | 12 => 335
  | _ => 0

/-- `datetime.strptime(f"{month_str} {day_str}, 2024 {time_str}",
"%b %d, %Y %I:%M%p")` followed by `pytz.UTC.localize` and
`int(dt.timestamp() * 1000)`; `none` is the raised `ValueError`. -/
def strptime_2024_ms (month_str day_str time_str : String) : Option Int :=
  match parse_month month_str, parse_day day_str with
  | some m, some d =>
      if d ≤ daysInMonth2024 m then
        match parse_time time_str with
        | some ht =>
            some ((((19723 + cumDays2024 m + (d - 1) : Int)) * 86400
                    + ht.1 * 3600 + ht.2 * 60) * 1000)
        | none => none
      else none
  | _, _ => none

/-- `convert_to_utc_ms(date_str, time_str)`.  `Except.ok none` is the
explicit `return None` of the short-label branch, `Except.error` is the
`ValueError` raised by `strptime` on a pattern mismatch (which the caller
does not catch), and `Except.ok (some ms)` is a successful parse. -/
def convert_to_utc_ms (date_str time_str : String) : Except String (Option Int) :=
  if 3 ≤ (pySplit date_str).length then
    match strptime_2024_ms ((pySplit date_str).getD 1 "") ((pySplit date_str).getD 2 "")
        time_str with
    | some ms => Except.ok (some ms)
    | none => Except.error "ValueError"
  else Except.ok none

/-! ### Orchestrator input filtering (`enrich_data` lines 101-102) -/

/-- One raw CSV row, with the columns produced by `reformat_scraped_data`. -/
structure RawRow where
  date : String
  time : String
  currency : String
  impact : String
  event : String
deriving DecidableEq

/-- `df[df['currency'].isin(ALLOWED_CURRENCY_CODES)]` followed by
`df[df['impact'].isin(ALLOWED_IMPACT_COLORS)]`. -/
def filter_allowed (rows : List RawRow) : List RawRow :=
  (rows.filter (fun r => decide (r.currency ∈ ALLOWED_CURRENCY_CODES))).filter
    (fun r => decide (r.impact ∈ ALLOWED_IMPACT_COLORS))

/-- `COLOR_SEVERITY_MAP[c]`: the severity lookup of lines 109-110, with a
missing key modelling the raised `KeyError`. -/
def color_severity (color : String) : Except String (String × Int) :=
  match COLOR_SEVERITY_MAP.lookup color with
  | some p => Except.ok p
  | none => Except.error ("KeyError: " ++ color)

/-! ### Domain factor (`domain_factor` inside `enrich_data`, lines 144-160)

The pandas row handed to `df.apply(domain_factor, axis=1)` is a Series
indexed by the frame's column labels; it is modelled as an association
list from column label to (string) cell value — `domain_factor` only ever
reads the two string-valued columns `category` and `headline`.  Reading a
label that is not a column raises `KeyError`, modelled by `Except.error`.
The batch-level condition `'USD' in df['currency'].unique()` is passed in
as the list of distinct currencies of the filtered frame. -/

/-- `row[key]` on a pandas Series: `KeyError` when the label is absent. -/
def getCol (row : List (String × String)) (key : String) : Except String String :=
  match row.lookup key with
  | some v => Except.ok v
  | none => Except.error ("KeyError: " ++ key)

/-- `domain_factor(row)`, reading `row['category']` and `row['headline']`
in the order the Python function evaluates them. -/
def domain_factor (df_currencies : List String) (row : List (String × String)) :
    Except String ℚ := do
  let category ← getCol row "category"
  let f1 : ℚ := if category = "RateDecision" ∨ category = "MonetaryPolicy"
                then 1.0 * 1.2 else 1.0
  let f2 := if category = "Inflation" then f1 * 1.15 else f1
  let f3 := if category = "NFP" then f2 * 1.2 else f2
  let headline ← getCol row "headline"
  let f4 := if contains_keyword headline GEOPOLITICAL_KEYWORDS then f3 * 1.25 else f3
  let f5 := if contains_keyword headline COMMODITY_KEYWORDS then f4 * 1.1 else f4
  let f6 := if headline ≠ "" ∧ "USD" ∈ df_currencies then f5 * 1.1 else f5
  return f6

/-- The column labels of the frame at the moment `domain_factor` is applied
(line 162): the five CSV columns plus everything added by lines 105-124.
The rename `event → headline` only happens at line 216. -/
def pipeline_columns : List String :=
  ["date", "time", "currency", "impact", "event", "time(ms)", "severity_category",
   "severity_level", "category", "sentiment_score", "historical_volatility",
   "future_event"]

/-! ### Severity composer (`enrich_data` lines 177-201)

The `for i, row in df.iterrows()` loop body, for one row.  Its inputs are
the columns the loop reads (`severity_level`, `historical_volatility`,
`sentiment_factor`, `domain_factor`, `future_event`, `category`,
`time(ms)`), the `math.log1p` function, and the coverage adapter as a
count-valued oracle.  The third component of the result is the trace of
`fetch_news_coverage` calls the body performs, so "queries the adapter
exactly once with these arguments" is a statement about the trace. -/

structure ComposerRow where
  severity_level : Int
  historical_volatility : ℚ
  sentiment_factor : ℚ
  domain_factor : ℚ
  future_event : Bool
  category : String
  time_ms : Int

/-- `df['time(ms)'] > now_ms` for one row (line 124); `now_ms` is sampled
once per run at line 123. -/
def future_event (now_ms time_ms : Int) : Bool :=
  decide (time_ms > now_ms)

/-- `1 + math.log1p(historical_volatility)` (line 181), with `log1p`
uninterpreted. -/
def volatility_factor (log1p : ℚ → ℚ) (v : ℚ) : ℚ :=
  1 + log1p v

/-- One iteration of the severity loop: returns
`(final_severity, anticipated_severity, coverage-call trace)`. -/
def compose_severity (log1p : ℚ → ℚ) (fetch : String → Int → Int)
    (row : ComposerRow) : Option ℚ × ℚ × List (String × Int) :=
  let official_sev : ℚ := (row.severity_level : ℚ)
  let vol_factor := 1 + log1p row.historical_volatility
  let sentiment_f := row.sentiment_factor
  let domain_f := row.domain_factor
  if row.future_event then
    (none, official_sev * vol_factor * 1.0 * sentiment_f * domain_f, [])
  else
    let coverage_count := fetch row.category row.time_ms
    let coverage_factor := compute_coverage_factor coverage_count
    (some (official_sev * vol_factor * coverage_factor * sentiment_f * domain_f),
     official_sev * vol_factor * 1.0 * sentiment_f * domain_f,
     [(row.category, row.time_ms)])

/-! ## Theorems -/

/-- C8: for every sentiment score s, sentiment_factor s equals
1 + |s| * 0.1 when s is strictly below -0.05 and 1.0 otherwise; the
boundary is exclusive, so sentiment_factor (-0.05) = 1.0,
sentiment_factor (-0.5) = 1.05 and sentiment_factor 0.3 = 1.0. -/
theorem sentiment_factor_spec :
    (∀ s : ℚ, s < -0.05 → sentiment_factor s = 1 + |s| * 0.1)
    ∧ (∀ s : ℚ, -0.05 ≤ s → sentiment_factor s = 1.0)
    ∧ sentiment_factor (-0.05) = 1.0
    ∧ sentiment_factor (-0.5) = 1.05
    ∧ sentiment_factor 0.3 = 1.0 := by
  refine ⟨fun s hs => if_pos hs, fun s hs => if_neg (not_lt.mpr hs), ?_, ?_, ?_⟩
  · show (if ((-0.05 : ℚ) < -0.05) then 1 + |(-0.05 : ℚ)| * 0.1 else 1.0) = 1.0
    rw [if_neg (by norm_num)]
  · show (if ((-0.5 : ℚ) < -0.05) then 1 + |(-0.5 : ℚ)| * 0.1 else 1.0) = 1.05
    rw [if_pos (by norm_num), abs_of_neg (by norm_num)]
    norm_num
  · show (if ((0.3 : ℚ) < -0.05) then 1 + |(0.3 : ℚ)| * 0.1 else 1.0) = 1.0
    rw [if_neg (by norm_num)]

/-- Witness for C8: the amplification branch applied at s = -0.5. -/
theorem sentiment_factor_spec_witness :
    sentiment_factor (-0.5) = 1 + |(-0.5 : ℚ)| * 0.1 :=
  sentiment_factor_spec.1 (-0.5) (by norm_num)

/-- C9: for every non-negative coverage count, compute_coverage_factor is
the three-tier step function 1.0 / 1.1 / 1.2, with the stated values at
0, 3, 5 and 6. -/
theorem compute_coverage_factor_tiers :
    (∀ c : Int, c = 0 → compute_coverage_factor c = 1.0)
    ∧ (∀ c : Int, 1 ≤ c → c ≤ 5 → compute_coverage_factor c = 1.1)
    ∧ (∀ c : Int, 5 < c → compute_coverage_factor c = 1.2)
    ∧ compute_coverage_factor 0 = 1.0
    ∧ compute_coverage_factor 3 = 1.1
    ∧ compute_coverage_factor 5 = 1.1
    ∧ compute_coverage_factor 6 = 1.2 := by
  refine ⟨?_, ?_, ?_, by norm_num [compute_coverage_factor],
    by norm_num [compute_coverage_factor], by norm_num [compute_coverage_factor],
    by norm_num [compute_coverage_factor]⟩
  · intro c hc
    show (if c = 0 then (1.0 : ℚ) else if 1 ≤ c ∧ c ≤ 5 then 1.1 else 1.2) = 1.0
    rw [if_pos hc]
  · intro c h1 h5
    show (if c = 0 then (1.0 : ℚ) else if 1 ≤ c ∧ c ≤ 5 then 1.1 else 1.2) = 1.1
    rw [if_neg (by omega), if_pos ⟨h1, h5⟩]
  · intro c h
    show (if c = 0 then (1.0 : ℚ) else if 1 ≤ c ∧ c ≤ 5 then 1.1 else 1.2) = 1.2
    rw [if_neg (by omega), if_neg (by omega)]

/-- Witness for C9: the middle tier applied at count 3. -/
theorem compute_coverage_factor_tiers_witness :
    compute_coverage_factor 3 = 1.1 :=
  compute_coverage_factor_tiers.2.1 3 (by decide) (by decide)

/-- C10: every color of ALLOWED_IMPACT_COLORS is a key of
COLOR_SEVERITY_MAP, so the severity lookup succeeds for every row that
survives the orchestrator filter; yellow and gray both map to (Low, 1). -/
theorem allowed_colors_severity_total :
    (∀ c : String, c ∈ ALLOWED_IMPACT_COLORS → ∃ p, color_severity c = Except.ok p)
    ∧ (∀ rows : List RawRow, ∀ r ∈ filter_allowed rows,
        ∃ p, color_severity r.impact = Except.ok p)
    ∧ color_severity "yellow" = Except.ok ("Low", 1)
    ∧ color_severity "gray" = Except.ok ("Low", 1) := by
  have key : ∀ c : String, c ∈ ALLOWED_IMPACT_COLORS → ∃ p, color_severity c = Except.ok p := by
    intro c hc
    fin_cases hc <;> exact ⟨_, rfl⟩
  refine ⟨key, ?_, rfl, rfl⟩
  intro rows r hr
  simp only [filter_allowed, List.mem_filter] at hr
  exact key r.impact (of_decide_eq_true hr.2)

/-- Witness for C10: the lookup succeeds for a filtered orange USD row and
for the allowed color red. -/
theorem allowed_colors_severity_total_witness :
    (∃ p, color_severity "red" = Except.ok p)
    ∧ (∃ p, color_severity "orange" = Except.ok p) :=
  ⟨allowed_colors_severity_total.1 "red" (by decide),
   allowed_colors_severity_total.2.1
     [{ date := "Wed Oct 2", time := "8:30am", currency := "USD",
        impact := "orange", event := "GDP data" }]
     { date := "Wed Oct 2", time := "8:30am", currency := "USD",
       impact := "orange", event := "GDP data" } (by decide)⟩

/-- C7 (amended): fetch_news_coverage returns the count 0 on transport
failure (network error, timeout, non-2xx raised by raise_for_status), on
an unparseable body, on a non-object body, and on an absent totalResults
field; but a present totalResults value is returned as-is, even when it is
not an integer count. -/
theorem fetch_news_coverage_fail_open :
    (∀ http : String → Int → HttpOutcome, ∀ kw : String, ∀ t : Int,
        http kw t = .failure → fetch_news_coverage http kw t = .jnum 0)
    ∧ (∀ http : String → Int → HttpOutcome, ∀ kw : String, ∀ t : Int,
        http kw t = .success none → fetch_news_coverage http kw t = .jnum 0)
    ∧ (∀ http : String → Int → HttpOutcome, ∀ kw : String, ∀ t : Int, ∀ j : PyJson,
        http kw t = .success (some j) → (∀ fields, j ≠ .jobj fields) →
        fetch_news_coverage http kw t = .jnum 0)
    ∧ (∀ http : String → Int → HttpOutcome, ∀ kw : String, ∀ t : Int,
        ∀ fields : List (String × PyJson),
        http kw t = .success (some (.jobj fields)) → fields.lookup "totalResults" = none →
        fetch_news_coverage http kw t = .jnum 0)
    ∧ (∀ http : String → Int → HttpOutcome, ∀ kw : String, ∀ t : Int,
        ∀ fields : List (String × PyJson), ∀ v : PyJson,
        http kw t = .success (some (.jobj fields)) →
        fields.lookup "totalResults" = some v →
        fetch_news_coverage http kw t = v) := by
  refine ⟨?_, ?_, ?_, ?_, ?_⟩
  · intro http kw t h; simp [fetch_news_coverage, h]
  · intro http kw t h; simp [fetch_news_coverage, h]
  · intro http kw t j h hj
    cases j with
    | jobj fields => exact absurd rfl (hj fields)
    | jnull => simp [fetch_news_coverage, h]
    | jbool b => simp [fetch_news_coverage, h]
    | jnum n => simp [fetch_news_coverage, h]
    | jstr s => simp [fetch_news_coverage, h]
    | jarr xs => simp [fetch_news_coverage, h]
  · intro http kw t fields h hl; simp [fetch_news_coverage, h, dict_get, hl]
  · intro http kw t fields v h hl; simp [fetch_news_coverage, h, dict_get, hl]

/-- Witness for C7: the fail-open default on a transport failure, and on a
response body without a totalResults field. -/
theorem fetch_news_coverage_fail_open_witness :
    fetch_news_coverage (fun _ _ => .failure) "GDP" 1727857800000 = .jnum 0
    ∧ fetch_news_coverage
        (fun _ _ => .success (some (.jobj [("status", PyJson.jstr "ok")])))
        "GDP" 1727857800000 = .jnum 0 :=
  ⟨fetch_news_coverage_fail_open.1 _ "GDP" 1727857800000 rfl,
   fetch_news_coverage_fail_open.2.2.2.1 _ "GDP" 1727857800000 _ rfl rfl⟩

/-- C7 counterexample: a 2xx response whose totalResults field holds a
string is passed through unchanged by fetch_news_coverage, not replaced
by the count 0 — `data.get("totalResults", 0)` only defaults on absence. -/
theorem fetch_news_coverage_malformed_passthrough :
    fetch_news_coverage
        (fun _ _ => .success (some (.jobj [("totalResults", PyJson.jstr "many")])))
        "MonetaryPolicy" 1727857800000 = PyJson.jstr "many"
    ∧ PyJson.jstr "many" ≠ PyJson.jnum 0 :=
  ⟨rfl, fun h => PyJson.noConfusion h⟩

/-- The scanning loop of infer_category returns the first match of the
keyword table, in list order. -/
theorem infer_category_go_eq_find (h : String) (l : List (String × String)) :
    infer_category_go h l =
      ((l.find? (fun p => py_in (py_lower p.1) (py_lower h))).map Prod.snd).getD "Other" := by
  induction l with
  | nil => rfl
  | cons p rest ih =>
      obtain ⟨k, v⟩ := p
      cases hp : py_in (py_lower k) (py_lower h) with
      | true => simp [infer_category_go, List.find?, hp]
      | false => simp [infer_category_go, List.find?, hp, ih]

/-- C6: infer_category scans the keyword table in its fixed insertion
order and returns the category of the first case-insensitive substring
match (Other when none matches); in particular a headline matching both
GDP and CPI but not the earlier Non-Farm Employment keyword resolves to
GDP, the earlier of the two in the table. -/
theorem infer_category_first_match :
    (∀ h : String, infer_category h =
      ((EVENT_CATEGORIES.find? (fun p => py_in (py_lower p.1) (py_lower h))).map
        Prod.snd).getD "Other")
    ∧ (∀ h : String, py_in "gdp" (py_lower h) = true → py_in "cpi" (py_lower h) = true →
        py_in "non-farm employment" (py_lower h) = false → infer_category h = "GDP") := by
  constructor
  · intro h
    exact infer_category_go_eq_find h EVENT_CATEGORIES
  · intro h h1 h2 h3
    have e1 : py_lower "Non-Farm Employment" = "non-farm employment" := rfl
    have e2 : py_lower "GDP" = "gdp" := rfl
    simp [infer_category, EVENT_CATEGORIES, infer_category_go, e1, e2, h1, h3]

/-- Witness for C6: a headline containing both CPI and GDP resolves to
GDP, whose keyword comes first in the table order. -/
theorem infer_category_first_match_witness :
    infer_category "US CPI and GDP beat forecasts" = "GDP" :=
  infer_category_first_match.2 "US CPI and GDP beat forecasts" (by decide) (by decide)
    (by decide)

/-- C5 counterexample: a date label with three tokens combined with an
unparseable time label makes convert_to_utc_ms raise ValueError (the
strptime call is not guarded), instead of returning the null marker. -/
theorem convert_to_utc_ms_raises_on_mismatch :
    convert_to_utc_ms "Wed Oct 2" "Tentative" = Except.error "ValueError" := rfl

/-- C5 (amended): convert_to_utc_ms returns the null marker in exactly one
case — a date label with fewer than 3 whitespace-separated tokens (such
rows are the ones the orchestrator later drops); when the label has 3 or
more tokens, a combined string that fails the month/day/year/time pattern
raises ValueError, which propagates, and otherwise a timestamp is
returned. -/
theorem convert_to_utc_ms_null_iff_short_label :
    (∀ d t : String, convert_to_utc_ms d t = Except.ok none ↔ (pySplit d).length < 3)
    ∧ (∀ d t : String, 3 ≤ (pySplit d).length →
        convert_to_utc_ms d t = Except.error "ValueError"
        ∨ ∃ ms : Int, convert_to_utc_ms d t = Except.ok (some ms)) := by
  have main : ∀ d t : String, 3 ≤ (pySplit d).length →
      convert_to_utc_ms d t = Except.error "ValueError"
      ∨ ∃ ms : Int, convert_to_utc_ms d t = Except.ok (some ms) := by
    intro d t hl
    cases hms : strptime_2024_ms ((pySplit d)[1]?.getD "") ((pySplit d)[2]?.getD "") t with
    | none =>
        exact Or.inl (by simp [convert_to_utc_ms, hl, hms])
    | some ms =>
        exact Or.inr ⟨ms, by simp [convert_to_utc_ms, hl, hms]⟩
  refine ⟨?_, main⟩
  intro d t
  by_cases hl : 3 ≤ (pySplit d).length
  · refine iff_of_false ?_ (by omega)
    rcases main d t hl with hc | ⟨ms, hc⟩ <;> rw [hc] <;> simp
  · exact iff_of_true (by simp [convert_to_utc_ms, hl]) (by omega)

/-- Witness for C5: a well-formed three-token label either raises or
parses (here it parses), never returning the null marker. -/
theorem convert_to_utc_ms_null_iff_short_label_witness :
    convert_to_utc_ms "Wed Oct 2" "8:30am" = Except.error "ValueError"
    ∨ ∃ ms : Int, convert_to_utc_ms "Wed Oct 2" "8:30am" = Except.ok (some ms) :=
  convert_to_utc_ms_null_iff_short_label.2 "Wed Oct 2" "8:30am" (by decide)

/-- C1: for a row whose event time lies strictly after the run's `now`,
the severity loop leaves final_severity absent, performs no coverage
lookup, and sets anticipated_severity to
severity_level * volatility_factor * sentiment_factor * domain_factor. -/
theorem future_event_severity_composition
    (log1p : ℚ → ℚ) (fetch : String → Int → Int)
    (now_ms t sev : Int) (vol snt dom : ℚ) (cat : String)
    (h : now_ms < t) :
    compose_severity log1p fetch
        { severity_level := sev, historical_volatility := vol,
          sentiment_factor := snt, domain_factor := dom,
          future_event := future_event now_ms t, category := cat, time_ms := t }
      = (none, (sev : ℚ) * volatility_factor log1p vol * snt * dom, []) := by
  have hf : future_event now_ms t = true := decide_eq_true h
  simp only [compose_severity, hf, if_true, volatility_factor, Prod.mk.injEq]
  exact ⟨trivial, by ring, trivial⟩

/-- Witness for C1: a concrete future row (event at 200, now at 100). -/
theorem future_event_severity_composition_witness :
    compose_severity (fun _ => 0) (fun _ _ => 7)
        { severity_level := 3, historical_volatility := 0,
          sentiment_factor := 1.05, domain_factor := 1.32,
          future_event := future_event 100 200, category := "GDP", time_ms := 200 }
      = (none, (3 : ℚ) * volatility_factor (fun _ => 0) 0 * 1.05 * 1.32, []) :=
  future_event_severity_composition (fun _ => 0) (fun _ _ => 7) 100 200 3 0 1.05 1.32
    "GDP" (by omega)

/-- C2: for a past row the severity loop queries the coverage adapter
exactly once, with the category as keyword and the event time, derives
the coverage factor from the returned count, sets final_severity to
severity_level * volatility_factor * coverage_factor * sentiment_factor
* domain_factor and anticipated_severity to the same product with the
coverage factor replaced by 1.0; hence final_severity equals
anticipated_severity * coverage_factor (exact arithmetic). -/
theorem past_event_severity_composition
    (log1p : ℚ → ℚ) (fetch : String → Int → Int)
    (now_ms t sev : Int) (vol snt dom : ℚ) (cat : String)
    (h : t ≤ now_ms) :
    compose_severity log1p fetch
        { severity_level := sev, historical_volatility := vol,
          sentiment_factor := snt, domain_factor := dom,
          future_event := future_event now_ms t, category := cat, time_ms := t }
      = (some ((sev : ℚ) * volatility_factor log1p vol
                * compute_coverage_factor (fetch cat t) * snt * dom),
         (sev : ℚ) * volatility_factor log1p vol * snt * dom,
         [(cat, t)])
    ∧ (sev : ℚ) * volatility_factor log1p vol * compute_coverage_factor (fetch cat t)
        * snt * dom
      = ((sev : ℚ) * volatility_factor log1p vol * snt * dom)
          * compute_coverage_factor (fetch cat t) := by
  have hf : future_event now_ms t = false := decide_eq_false (by omega)
  constructor
  · simp only [compose_severity, hf, Bool.false_eq_true, if_false, volatility_factor,
      Prod.mk.injEq]
    exact ⟨trivial, by ring, trivial⟩
  · ring

/-- Witness for C2: a concrete past row (event at 100, now at 200) with an
adapter always returning count 3. -/
theorem past_event_severity_composition_witness :
    compose_severity (fun _ => 0) (fun _ _ => 3)
        { severity_level := 3, historical_volatility := 0,
          sentiment_factor := 1.05, domain_factor := 1.32,
          future_event := future_event 200 100, category := "GDP", time_ms := 100 }
      = (some ((3 : ℚ) * volatility_factor (fun _ => 0) 0
                * compute_coverage_factor 3 * 1.05 * 1.32),
         (3 : ℚ) * volatility_factor (fun _ => 0) 0 * 1.05 * 1.32,
         [("GDP", 100)])
    ∧ (3 : ℚ) * volatility_factor (fun _ => 0) 0 * compute_coverage_factor 3 * 1.05 * 1.32
      = ((3 : ℚ) * volatility_factor (fun _ => 0) 0 * 1.05 * 1.32)
          * compute_coverage_factor 3 :=
  past_event_severity_composition (fun _ => 0) (fun _ _ => 3) 200 100 3 0 1.05 1.32
    "GDP" (by omega)

/-- C3 (code evaluated at the failing input): at the point where
domain_factor runs, the frame's columns are pipeline_columns — there is
an event column but no headline column, because the rename to headline
only happens later — so domain_factor raises KeyError on reading
row with the headline key, before any geopolitical or commodity
multiplier can be applied, even though the event text contains the
geopolitical keyword war. -/
theorem domain_factor_geopolitical_keyerror :
    ([("date", "Wed Oct 2"), ("time", "8:30am"), ("currency", "USD"),
      ("impact", "red"), ("event", "war fears escalate"),
      ("time(ms)", "1727857800000"), ("severity_category", "High"),
      ("severity_level", "3"), ("category", "Other"),
      ("sentiment_score", "-0.6"), ("historical_volatility", "0.0"),
      ("future_event", "False")] : List (String × String)).map Prod.fst
      = pipeline_columns
    ∧ contains_keyword "war fears escalate" GEOPOLITICAL_KEYWORDS = true
    ∧ domain_factor ["USD"]
        [("date", "Wed Oct 2"), ("time", "8:30am"), ("currency", "USD"),
         ("impact", "red"), ("event", "war fears escalate"),
         ("time(ms)", "1727857800000"), ("severity_category", "High"),
         ("severity_level", "3"), ("category", "Other"),
         ("sentiment_score", "-0.6"), ("historical_volatility", "0.0"),
         ("future_event", "False")]
      = Except.error "KeyError: headline" :=
  ⟨rfl, rfl, rfl⟩

/-- C4 (code evaluated at the failing input): the batch-level USD
multiplier of domain_factor is unreachable — on a pipeline row (columns
as at the point of application, event not yet renamed to headline) the
function raises KeyError whether or not USD is among the distinct batch
currencies. -/
theorem domain_factor_usd_condition_keyerror :
    ([("date", "Thu Oct 3"), ("time", "9:00am"), ("currency", "EUR"),
      ("impact", "orange"), ("event", "Gold reserves update"),
      ("time(ms)", "1727946000000"), ("severity_category", "Medium"),
      ("severity_level", "2"), ("category", "Other"),
      ("sentiment_score", "0.1"), ("historical_volatility", "0.0"),
      ("future_event", "False")] : List (String × String)).map Prod.fst
      = pipeline_columns
    ∧ domain_factor ["EUR", "USD"]
        [("date", "Thu Oct 3"), ("time", "9:00am"), ("currency", "EUR"),
         ("impact", "orange"), ("event", "Gold reserves update"),
         ("time(ms)", "1727946000000"), ("severity_category", "Medium"),
         ("severity_level", "2"), ("category", "Other"),
         ("sentiment_score", "0.1"), ("historical_volatility", "0.0"),
         ("future_event", "False")]
      = Except.error "KeyError: headline"
    ∧ domain_factor ["EUR"]
        [("date", "Thu Oct 3"), ("time", "9:00am"), ("currency", "EUR"),
         ("impact", "orange"), ("event", "Gold reserves update"),
         ("time(ms)", "1727946000000"), ("severity_category", "Medium"),
         ("severity_level", "2"), ("category", "Other"),
         ("sentiment_score", "0.1"), ("historical_volatility", "0.0"),
         ("future_event", "False")]
      = Except.error "KeyError: headline" :=
  ⟨rfl, rfl, rfl⟩
